import Mathlib

/-!
# Verification of the vibe-git repository dashboard core

Shallow embedding of `src/vibe-git.py`: the repository state record
(`RepoStatus`), the eligibility engine (`why_not_*` / `can_*` methods), the
inspector (`check_repo` and its helpers), the mutating procedures
(`reset_to_remote`, `delete_local_folder`) and the worktree/branch
provisioner helpers (`get_next_feature_number`,
`generate_speckit_branch_name`).

External effects (the `git` subprocess, the filesystem) are modelled as
oracle functions passed to the embedded code: `run_git(args, cwd)` becomes a
function from the argument list (and, where several working directories are
involved, the working directory) to the `(success, output)` pair the Python
code consumes.  Procedures whose side effects matter to the claims also
return the ordered list of effects they performed.
-/

/-! ## Python string primitives

The Python code uses `in` (substring test), `startswith`, `strip`,
`lstrip`, `splitlines`, `str.replace` and `str.isdigit`.  They are modelled
here on `List Char` / `String`.  `splitlines` is modelled as splitting on
`'\n'`; the two differ only on exotic line terminators and on trailing
newlines, which produce extra empty lines that every caller in the source
ignores.
-/

/-- Python `needle in haystack` (substring containment) on strings. -/
def listIsInfixOf (needle : List Char) : List Char → Bool
  | [] => needle.isEmpty
  | c :: rest => List.isPrefixOf needle (c :: rest) || listIsInfixOf needle rest

/-- Python `needle in haystack` on `String`. -/
def pyIn (needle haystack : String) : Bool :=
  listIsInfixOf needle.data haystack.data

/-- Python `s.startswith(p)`. -/
def pyStartsWith (s p : String) : Bool :=
  List.isPrefixOf p.data s.data

/-- Split a character list at every occurrence of `sep`; always returns a
non-empty list of chunks. -/
def splitOnChar (sep : Char) : List Char → List (List Char)
  | [] => [[]]
  | c :: rest =>
    match splitOnChar sep rest with
    | r :: rs => if c == sep then [] :: r :: rs else (c :: r) :: rs
    | [] => [[]]

/-- Python `s.splitlines()` (modelled as splitting on `'\n'`). -/
def pyLines (s : String) : List String :=
  (splitOnChar '\x0a' s.data).map List.asString

/-- Python `s.strip()` on a character list. -/
def pyStrip (s : List Char) : List Char :=
  ((s.dropWhile Char.isWhitespace).reverse.dropWhile Char.isWhitespace).reverse

/-- Python `s.strip()` on `String`. -/
def pyStripStr (s : String) : String :=
  (pyStrip s.data).asString

/-- Python `s.lstrip(chars)`: drop leading characters belonging to `chars`. -/
def pyLstrip (chars : List Char) (s : List Char) : List Char :=
  s.dropWhile (fun c => chars.contains c)

/-- Python `s.replace(pat, rep)` (all occurrences), with explicit structural
fuel; `fuel = s.length` never runs out for a non-empty pattern. -/
def replaceAllFuel (pat rep : List Char) : Nat → List Char → List Char
  | _, [] => []
  | 0, s => s
  | fuel + 1, c :: rest =>
    if pat ≠ [] ∧ List.isPrefixOf pat (c :: rest) then
      rep ++ replaceAllFuel pat rep fuel ((c :: rest).drop pat.length)
    else
      c :: replaceAllFuel pat rep fuel rest

/-- Python `s.replace(pat, rep)` on `String`. -/
def pyReplace (s pat rep : String) : String :=
  (replaceAllFuel pat.data rep.data s.data.length s.data).asString

/-- Python `s.isdigit()` for ASCII content: non-empty and all digits. -/
def pyIsDigitStr (s : String) : Bool :=
  s.data ≠ [] && s.data.all Char.isDigit

/-- Python `int(s)` for a string of ASCII digits. -/
def pyInt (s : String) : Nat :=
  s.data.foldl (fun n c => n * 10 + (c.toNat - 48)) 0

/-! ## Data model: `RepoStatus` and the eligibility engine

Direct translation of the `RepoStatus` dataclass and its `can_*` /
`why_not_*` methods (`src/vibe-git.py`, lines 468–577).  Paths are plain
strings.
-/

structure RepoStatus where
  name : String
  path : String
  type_label : String
  branch : String
  remote_exists : Bool
  sync_status : String
  rebase_status : String
  pr_status : String
  main_branch : String
  has_changes : Bool
deriving DecidableEq

def RepoStatus.why_not_pull (r : RepoStatus) : Option String :=
  if !r.remote_exists then some "no remote branch"
  else if !(pyIn "Behind" r.sync_status) then some "already synced"
  else if pyIn "Diverged" r.sync_status then some "diverged (use force push)"
  else if r.has_changes then some "has uncommitted changes"
  else none

def RepoStatus.can_pull (r : RepoStatus) : Bool :=
  r.why_not_pull.isNone

def RepoStatus.why_not_rebase (r : RepoStatus) : Option String :=
  if [r.main_branch, "main", "dev", "master"].contains r.branch then
    some "on main branch"
  else if r.has_changes then some "has uncommitted changes"
  else
    let is_behind_remote :=
      pyIn "Behind" r.sync_status && !(pyIn "Diverged" r.sync_status)
    let is_behind_main :=
      (r.sync_status == "Synced" || r.sync_status == "-")
        && pyIn "Behind" r.rebase_status
    if !(is_behind_remote || is_behind_main) then some "already rebased"
    else none

def RepoStatus.can_rebase (r : RepoStatus) : Bool :=
  r.why_not_rebase.isNone

def RepoStatus.why_not_force_push (r : RepoStatus) : Option String :=
  if !r.remote_exists then some "no remote branch"
  else if ["main", "master", "dev"].contains r.branch then
    some "protected branch"
  else if !(pyIn "Ahead" r.sync_status) && !(pyIn "Diverged" r.sync_status) then
    some "nothing to push"
  else none

def RepoStatus.can_force_push (r : RepoStatus) : Bool :=
  r.why_not_force_push.isNone

def RepoStatus.why_not_delete_local (r : RepoStatus) : Option String :=
  if !r.remote_exists then some "no remote branch (data would be lost)"
  else if r.has_changes then some "has uncommitted changes"
  else if r.sync_status ≠ "Synced" then
    some ("not synced with remote (" ++ r.sync_status ++ ")")
  else none

def RepoStatus.can_delete_local (r : RepoStatus) : Bool :=
  r.why_not_delete_local.isNone

/-! ## Claim C1 -/

/-- **C1.** A repository state with `has_changes = true` is never eligible
for pull, rebase or delete-local: each `why_not_*` function returns a
non-`none` reason, so each `can_*` predicate is `false`. -/
theorem C1_dirty_blocks_pull_rebase_delete (r : RepoStatus)
    (h : r.has_changes = true) :
    r.why_not_pull ≠ none ∧ r.why_not_rebase ≠ none ∧
      r.why_not_delete_local ≠ none ∧
      r.can_pull = false ∧ r.can_rebase = false ∧
      r.can_delete_local = false := by
  have hpull : r.why_not_pull ≠ none := by
    unfold RepoStatus.why_not_pull
    split_ifs <;> simp_all
  have hrebase : r.why_not_rebase ≠ none := by
    unfold RepoStatus.why_not_rebase
    split_ifs <;> simp_all
  have hdelete : r.why_not_delete_local ≠ none := by
    unfold RepoStatus.why_not_delete_local
    split_ifs <;> simp_all
  refine ⟨hpull, hrebase, hdelete, ?_, ?_, ?_⟩
  · unfold RepoStatus.can_pull
    cases hx : r.why_not_pull with
    | none => exact absurd hx hpull
    | some v => simp [Option.isNone]
  · unfold RepoStatus.can_rebase
    cases hx : r.why_not_rebase with
    | none => exact absurd hx hrebase
    | some v => simp [Option.isNone]
  · unfold RepoStatus.can_delete_local
    cases hx : r.why_not_delete_local with
    | none => exact absurd hx hdelete
    | some v => simp [Option.isNone]

/-- A dirty repository on a feature branch, behind its remote. -/
def c1DirtyRepo : RepoStatus :=
  ⟨"r", "/ws/r", "Repo", "feat", true, "Behind (-1)", "Rebased", "-", "main",
    true⟩

/-- Concrete instantiation of `C1_dirty_blocks_pull_rebase_delete`. -/
theorem C1_witness :
    c1DirtyRepo.has_changes = true ∧
      (c1DirtyRepo.why_not_pull ≠ none ∧ c1DirtyRepo.why_not_rebase ≠ none ∧
        c1DirtyRepo.why_not_delete_local ≠ none ∧
        c1DirtyRepo.can_pull = false ∧ c1DirtyRepo.can_rebase = false ∧
        c1DirtyRepo.can_delete_local = false) :=
  ⟨rfl, C1_dirty_blocks_pull_rebase_delete c1DirtyRepo rfl⟩

/-! ## The repository inspector

`run_git` executes a subprocess; it is modelled as an oracle
`GitOracle : List String → Bool × String` mapping the git argument list to
the `(success, output)` pair (the working directory is fixed, since
`check_repo` always runs in the inspected repository).
-/

def GitOracle := List String → Bool × String

/-- `has_uncommitted_changes` (`src/vibe-git.py`, lines 646–653): a failed
`git status --porcelain` counts as dirty; otherwise any line that is
non-empty and starts with neither `"??"` (untracked) nor `"!!"` (ignored)
counts as dirty. -/
def has_uncommitted_changes (git : GitOracle) : Bool :=
  let r := git ["status", "--porcelain"]
  if !r.1 then true
  else
    (pyLines r.2).any fun line =>
      line != "" && !(pyStartsWith line "??") && !(pyStartsWith line "!!")

/-- Sync status string `f"Ahead (+{ahead})"`. -/
def aheadStr (n : Nat) : String :=
  "Ahead (+" ++ Nat.repr n ++ ")"

/-- Sync status string `f"Behind (-{behind})"`. -/
def behindStr (n : Nat) : String :=
  "Behind (-" ++ Nat.repr n ++ ")"

/-- Sync status string for the diverged case: `"Diverged ("`, `"+"`, the
ahead count, `"/"`, `"-"`, the behind count, `")"`. -/
def divergedStr (a b : Nat) : String :=
  "Diverged (+" ++ Nat.repr a ++ "/-" ++ Nat.repr b ++ ")"

/-- Rebase status string `f"Behind {main_branch} (-{behind_main})"`. -/
def behindMainStr (main_branch : String) (n : Nat) : String :=
  "Behind " ++ main_branch ++ " (-" ++ Nat.repr n ++ ")"

/-- The sync-status block of `check_repo` (`src/vibe-git.py`, lines
1060–1080). -/
def computeSyncStatus (git : GitOracle) (remote_exists : Bool)
    (remote_branch : String) : String :=
  if remote_exists then
    let localRes := git ["rev-parse", "HEAD"]
    let remoteRes := git ["rev-parse", remote_branch]
    if localRes.1 && remoteRes.1 && localRes.2 == remoteRes.2 then "Synced"
    else
      let aheadRes := git ["rev-list", "--count", remote_branch ++ "..HEAD"]
      let ahead :=
        if aheadRes.1 && pyIsDigitStr aheadRes.2 then pyInt aheadRes.2 else 0
      let behindRes := git ["rev-list", "--count", "HEAD.." ++ remote_branch]
      let behind :=
        if behindRes.1 && pyIsDigitStr behindRes.2 then pyInt behindRes.2
        else 0
      if ahead > 0 && behind > 0 then divergedStr ahead behind
      else if ahead > 0 then aheadStr ahead
      else if behind > 0 then behindStr behind
      else "Synced"
  else "-"

/-- The rebase-status block of `check_repo` (`src/vibe-git.py`, lines
1082–1100).  The source queries `rev-parse origin_main` twice (once to test
resolvability, once for the commit); with a pure oracle both calls coincide. -/
def computeRebaseStatus (git : GitOracle) (branch main_branch : String) :
    String :=
  let origin_main := "origin/" ++ main_branch
  if [main_branch, "main", "dev", "master"].contains branch then "-"
  else
    let probe := git ["rev-parse", origin_main]
    if probe.1 then
      let mainRes := git ["rev-parse", origin_main]
      let baseRes := git ["merge-base", "HEAD", origin_main]
      if mainRes.1 && baseRes.1 && baseRes.2 == mainRes.2 then "Rebased"
      else
        let behindRes :=
          git ["rev-list", "--count", "HEAD..origin/" ++ main_branch]
        let behind_main :=
          if behindRes.1 && pyIsDigitStr behindRes.2 then pyInt behindRes.2
          else 0
        behindMainStr main_branch behind_main
    else "No " ++ main_branch

/-- `check_repo` (`src/vibe-git.py`, lines 1044–1116).  `main_branch` stands
for the result of `get_main_branch` (a filesystem lookup) and `pr_of` for
`get_pr_status(·, repo_path)` (a GitHub CLI lookup); both are external
collaborators of the inspector.  The best-effort `git fetch --all --quiet`
has no observable result.  A failed branch query aborts inspection
(`none`); an empty branch name becomes the sentinel `DETACHED`. -/
def check_repo (git : GitOracle) (name path : String) (is_worktree : Bool)
    (main_branch : String) (pr_of : String → String) : Option RepoStatus :=
  let type_label := if is_worktree then "Worktree" else "Repo"
  let branchRes := git ["rev-parse", "--abbrev-ref", "HEAD"]
  if !branchRes.1 then none
  else
    let branch := if branchRes.2 == "" then "DETACHED" else branchRes.2
    let remoteRes := git ["ls-remote", "--heads", "origin", branch]
    let remote_exists := if remoteRes.1 then pyIn branch remoteRes.2 else false
    let remote_branch := "origin/" ++ branch
    let sync_status := computeSyncStatus git remote_exists remote_branch
    let rebase_status := computeRebaseStatus git branch main_branch
    let pr_status := pr_of branch
    let has_changes := has_uncommitted_changes git
    some ⟨name, path, type_label, branch, remote_exists, sync_status,
      rebase_status, pr_status, main_branch, has_changes⟩

/-! ## Claim C4 -/

/-- A repository whose only status entry is one untracked (not ignored)
file: `git status --porcelain` succeeds and prints `?? newfile.txt`. -/
def c4UntrackedOracle : GitOracle := fun args =>
  if args == ["status", "--porcelain"] then (true, "?? newfile.txt")
  else (true, "")

/-- **C4, counterexample.** The status query succeeds and reports exactly one
untracked-but-not-ignored file, yet `has_uncommitted_changes` returns
`false`: untracked files do not make the inspector set
`hasLocalChanges = true`, contrary to the claim. -/
theorem C4_counterexample :
    c4UntrackedOracle ["status", "--porcelain"] = (true, "?? newfile.txt") ∧
      has_uncommitted_changes c4UntrackedOracle = false :=
  ⟨rfl, by decide⟩

/-- **C4, amended.** A failed status query is treated as dirty; a successful
status query reports dirty exactly when some output line is non-empty and
starts with neither `"??"` (untracked) nor `"!!"` (ignored) — so untracked
and ignored entries never contribute to `hasLocalChanges`. -/
theorem C4_dirty_iff_tracked_line (git : GitOracle) :
    ((git ["status", "--porcelain"]).1 = false →
      has_uncommitted_changes git = true) ∧
      ((git ["status", "--porcelain"]).1 = true →
        (has_uncommitted_changes git = true ↔
          ∃ line ∈ pyLines (git ["status", "--porcelain"]).2,
            line ≠ "" ∧ pyStartsWith line "??" = false ∧
              pyStartsWith line "!!" = false)) := by
  unfold has_uncommitted_changes
  constructor
  · intro h
    simp [h]
  · intro h
    simp only [h, Bool.not_true, Bool.false_eq_true, if_false, if_neg,
      Bool.not_eq_true']
    rw [List.any_eq_true]
    constructor
    · rintro ⟨line, hmem, hline⟩
      refine ⟨line, hmem, ?_, ?_, ?_⟩ <;> simp_all
    · rintro ⟨line, hmem, h1, h2, h3⟩
      exact ⟨line, hmem, by simp_all⟩

/-- A repository with one tracked modification (` M file`), and one whose
status query fails. -/
def c4TrackedOracle : GitOracle := fun args =>
  if args == ["status", "--porcelain"] then (true, " M app.py\x0a?? tmp.txt")
  else (true, "")

def c4FailOracle : GitOracle := fun _ => (false, "fatal: not a git repository")

/-- Concrete instantiation of `C4_dirty_iff_tracked_line`: a failed query
counts as dirty, and a tracked modification line counts as dirty. -/
theorem C4_witness :
    ((c4FailOracle ["status", "--porcelain"]).1 = false ∧
        has_uncommitted_changes c4FailOracle = true) ∧
      ((c4TrackedOracle ["status", "--porcelain"]).1 = true ∧
        has_uncommitted_changes c4TrackedOracle = true) :=
  ⟨⟨rfl, (C4_dirty_iff_tracked_line c4FailOracle).1 rfl⟩,
    ⟨rfl, ((C4_dirty_iff_tracked_line c4TrackedOracle).2 rfl).2
      ⟨" M app.py", by decide, by decide, by decide, by decide⟩⟩⟩

/-! ## Claim C2

Spec-side characterization of the sync-status field: the four value shapes
of §3 of the spec, as decidable predicates on the status string, plus
helper lemmas about `List.isPrefixOf` on appended lists.
-/

/-- Spec shape `Synced`. -/
def isSyncedShape (s : String) : Bool := pyStartsWith s "Synced"

/-- Spec shape `Ahead(n)`. -/
def isAheadShape (s : String) : Bool := pyStartsWith s "Ahead "

/-- Spec shape `Behind(n)`. -/
def isBehindShape (s : String) : Bool := pyStartsWith s "Behind "

/-- Spec shape `Diverged(ahead, behind)`. -/
def isDivergedShape (s : String) : Bool := pyStartsWith s "Diverged "

/-- The four §3 sync shapes of a status string, in order. -/
def syncShapes (s : String) : List Bool :=
  [isSyncedShape s, isAheadShape s, isBehindShape s, isDivergedShape s]

theorem isPrefixOf_append_of (p q rest : List Char)
    (h : List.isPrefixOf p q = true) :
    List.isPrefixOf p (q ++ rest) = true := by
  rw [List.isPrefixOf_iff_prefix] at h ⊢
  exact h.trans (List.prefix_append q rest)

theorem isPrefixOf_append_false (p q rest : List Char)
    (h : List.isPrefixOf (p.take q.length) q = false) :
    List.isPrefixOf p (q ++ rest) = false := by
  induction p generalizing q with
  | nil => simp at h
  | cons a as ih =>
    cases q with
    | nil => simp at h
    | cons b bs =>
      simp only [List.take, List.length_cons, List.isPrefixOf_cons₂,
        List.cons_append] at h ⊢
      cases hab : a == b with
      | false => simp [hab]
      | true => simp only [hab, Bool.true_and] at h ⊢; exact ih bs h

theorem aheadStr_data (n : Nat) :
    (aheadStr n).data = "Ahead (+".data ++ ((Nat.repr n).data ++ ")".data) := by
  simp [aheadStr, List.append_assoc]

theorem behindStr_data (n : Nat) :
    (behindStr n).data =
      "Behind (-".data ++ ((Nat.repr n).data ++ ")".data) := by
  simp [behindStr, List.append_assoc]

theorem divergedStr_data (a b : Nat) :
    (divergedStr a b).data =
      "Diverged (+".data ++
        ((Nat.repr a).data ++ ("/-".data ++ ((Nat.repr b).data ++ ")".data))) := by
  simp [divergedStr, List.append_assoc]

theorem syncShapes_aheadStr (n : Nat) :
    syncShapes (aheadStr n) = [false, true, false, false] := by
  unfold syncShapes isSyncedShape isAheadShape isBehindShape isDivergedShape
    pyStartsWith
  rw [aheadStr_data n]
  rw [isPrefixOf_append_false "Synced".data "Ahead (+".data _ (by decide),
    isPrefixOf_append_of "Ahead ".data "Ahead (+".data _ (by decide),
    isPrefixOf_append_false "Behind ".data "Ahead (+".data _ (by decide),
    isPrefixOf_append_false "Diverged ".data "Ahead (+".data _ (by decide)]

theorem syncShapes_behindStr (n : Nat) :
    syncShapes (behindStr n) = [false, false, true, false] := by
  unfold syncShapes isSyncedShape isAheadShape isBehindShape isDivergedShape
    pyStartsWith
  rw [behindStr_data n]
  rw [isPrefixOf_append_false "Synced".data "Behind (-".data _ (by decide),
    isPrefixOf_append_false "Ahead ".data "Behind (-".data _ (by decide),
    isPrefixOf_append_of "Behind ".data "Behind (-".data _ (by decide),
    isPrefixOf_append_false "Diverged ".data "Behind (-".data _ (by decide)]

theorem syncShapes_divergedStr (a b : Nat) :
    syncShapes (divergedStr a b) = [false, false, false, true] := by
  unfold syncShapes isSyncedShape isAheadShape isBehindShape isDivergedShape
    pyStartsWith
  rw [divergedStr_data a b]
  rw [isPrefixOf_append_false "Synced".data "Diverged (+".data _ (by decide),
    isPrefixOf_append_false "Ahead ".data "Diverged (+".data _ (by decide),
    isPrefixOf_append_false "Behind ".data "Diverged (+".data _ (by decide),
    isPrefixOf_append_of "Diverged ".data "Diverged (+".data _ (by decide)]

/-- The ahead/behind classification at the end of the sync-status block,
over arbitrary counts. -/
theorem syncClassifyCases (a b : Nat) :
    (if a > 0 && b > 0 then divergedStr a b
      else if a > 0 then aheadStr a
      else if b > 0 then behindStr b
      else "Synced") = "Synced" ∨
      (∃ n, 0 < n ∧
        (if a > 0 && b > 0 then divergedStr a b
          else if a > 0 then aheadStr a
          else if b > 0 then behindStr b
          else "Synced") = aheadStr n) ∨
      (∃ n, 0 < n ∧
        (if a > 0 && b > 0 then divergedStr a b
          else if a > 0 then aheadStr a
          else if b > 0 then behindStr b
          else "Synced") = behindStr n) ∨
      (∃ x y, 0 < x ∧ 0 < y ∧
        (if a > 0 && b > 0 then divergedStr a b
          else if a > 0 then aheadStr a
          else if b > 0 then behindStr b
          else "Synced") = divergedStr x y) := by
  split_ifs with h1 h2 h3
  · right; right; right
    simp only [Bool.and_eq_true, decide_eq_true_eq] at h1
    exact ⟨a, b, h1.1, h1.2, rfl⟩
  · right; left
    exact ⟨a, h2, rfl⟩
  · right; right; left
    exact ⟨b, h3, rfl⟩
  · left; rfl

/-- The sync status computed for an existing remote is one of the four §3
shapes, with strictly positive counts where counts appear. -/
theorem computeSyncStatus_remote_cases (git : GitOracle) (rb : String) :
    computeSyncStatus git true rb = "Synced" ∨
      (∃ n, 0 < n ∧ computeSyncStatus git true rb = aheadStr n) ∨
      (∃ n, 0 < n ∧ computeSyncStatus git true rb = behindStr n) ∨
      (∃ a b, 0 < a ∧ 0 < b ∧
        computeSyncStatus git true rb = divergedStr a b) := by
  simp only [computeSyncStatus, if_true]
  split
  · left; rfl
  · exact syncClassifyCases _ _

/-- For an existing remote, the computed sync status is not the `"-"`
sentinel, matches exactly one of the four §3 shapes, and is one of the four
concrete status forms with positive counts. -/
theorem computeSyncStatus_remote_facts (git : GitOracle) (rb : String) :
    computeSyncStatus git true rb ≠ "-" ∧
      (syncShapes (computeSyncStatus git true rb)).count true = 1 ∧
      (computeSyncStatus git true rb = "Synced" ∨
        (∃ n, 0 < n ∧ computeSyncStatus git true rb = aheadStr n) ∨
        (∃ n, 0 < n ∧ computeSyncStatus git true rb = behindStr n) ∨
        (∃ a b, 0 < a ∧ 0 < b ∧
          computeSyncStatus git true rb = divergedStr a b)) := by
  rcases computeSyncStatus_remote_cases git rb with
    h | ⟨n, hn, h⟩ | ⟨n, hn, h⟩ | ⟨a, b, ha, hb, h⟩
  · rw [h]
    exact ⟨by decide, by decide, Or.inl rfl⟩
  · rw [h]
    refine ⟨?_, ?_, Or.inr (Or.inl ⟨n, hn, rfl⟩)⟩
    · intro heq
      have hs := syncShapes_aheadStr n
      rw [heq] at hs
      exact absurd hs (by decide)
    · rw [syncShapes_aheadStr]; decide
  · rw [h]
    refine ⟨?_, ?_, Or.inr (Or.inr (Or.inl ⟨n, hn, rfl⟩))⟩
    · intro heq
      have hs := syncShapes_behindStr n
      rw [heq] at hs
      exact absurd hs (by decide)
    · rw [syncShapes_behindStr]; decide
  · rw [h]
    refine ⟨?_, ?_, Or.inr (Or.inr (Or.inr ⟨a, b, ha, hb, rfl⟩))⟩
    · intro heq
      have hs := syncShapes_divergedStr a b
      rw [heq] at hs
      exact absurd hs (by decide)
    · rw [syncShapes_divergedStr]; decide

/-- **C2.** Every state produced by the inspector has `sync_status = "-"`
exactly when `remote_exists = false`; and when the remote exists the status
is one of `Synced`, `Ahead(n)`, `Behind(n)`, `Diverged(a, b)` (positive
counts) and matches exactly one of the four shapes. -/
theorem C2_sync_status_invariant (git : GitOracle) (name path : String)
    (is_worktree : Bool) (main_branch : String) (pr_of : String → String)
    (st : RepoStatus)
    (h : check_repo git name path is_worktree main_branch pr_of = some st) :
    (st.sync_status = "-" ↔ st.remote_exists = false) ∧
      (st.remote_exists = true →
        ((st.sync_status = "Synced" ∨
          (∃ n, 0 < n ∧ st.sync_status = aheadStr n) ∨
          (∃ n, 0 < n ∧ st.sync_status = behindStr n) ∨
          (∃ a b, 0 < a ∧ 0 < b ∧ st.sync_status = divergedStr a b)) ∧
          (syncShapes st.sync_status).count true = 1)) := by
  simp only [check_repo] at h
  split at h
  · exact absurd h (by simp)
  · rw [Option.some.injEq] at h
    subst h
    dsimp only
    generalize (if (git ["ls-remote", "--heads", "origin",
        if (git ["rev-parse", "--abbrev-ref", "HEAD"]).2 == "" then "DETACHED"
        else (git ["rev-parse", "--abbrev-ref", "HEAD"]).2]).1 = true then
        pyIn
          (if (git ["rev-parse", "--abbrev-ref", "HEAD"]).2 == "" then
            "DETACHED"
          else (git ["rev-parse", "--abbrev-ref", "HEAD"]).2)
          (git ["ls-remote", "--heads", "origin",
            if (git ["rev-parse", "--abbrev-ref", "HEAD"]).2 == "" then
              "DETACHED"
            else (git ["rev-parse", "--abbrev-ref", "HEAD"]).2]).2
      else false) = re
    cases re with
    | false =>
      refine ⟨?_, by simp⟩
      simp only [computeSyncStatus, if_false]
      simp
    | true =>
      obtain ⟨hne, hcount, hcases⟩ := computeSyncStatus_remote_facts git
        ("origin/" ++
          (if (git ["rev-parse", "--abbrev-ref", "HEAD"]).2 == "" then
            "DETACHED"
          else (git ["rev-parse", "--abbrev-ref", "HEAD"]).2))
      refine ⟨?_, fun _ => ⟨hcases, hcount⟩⟩
      constructor
      · intro hx
        exact absurd hx hne
      · intro hx
        exact absurd hx (by simp)

/-- A repository on branch `feat` whose remote branch exists and is 2
commits ahead of the local tip (local behind by 2), with a clean tree. -/
def c2BehindOracle : GitOracle := fun args =>
  if args == ["rev-parse", "--abbrev-ref", "HEAD"] then (true, "feat")
  else if args == ["ls-remote", "--heads", "origin", "feat"] then
    (true, "29ab7\x09refs/heads/feat")
  else if args == ["rev-parse", "HEAD"] then (true, "11aa1")
  else if args == ["rev-parse", "origin/feat"] then (true, "29ab7")
  else if args == ["rev-list", "--count", "origin/feat..HEAD"] then (true, "0")
  else if args == ["rev-list", "--count", "HEAD..origin/feat"] then (true, "2")
  else if args == ["rev-parse", "origin/main"] then (true, "77cc7")
  else if args == ["merge-base", "HEAD", "origin/main"] then (true, "77cc7")
  else if args == ["status", "--porcelain"] then (true, "")
  else (true, "")

/-- The state the inspector produces from `c2BehindOracle`. -/
def c2BehindRepo : RepoStatus :=
  ⟨"r", "/ws/r", "Repo", "feat", true, "Behind (-2)", "Rebased", "No PR",
    "main", false⟩

/-- Concrete instantiation of `C2_sync_status_invariant` on
`c2BehindOracle`. -/
theorem C2_witness :
    check_repo c2BehindOracle "r" "/ws/r" false "main" (fun _ => "No PR") =
        some c2BehindRepo ∧
      ((c2BehindRepo.sync_status = "-" ↔ c2BehindRepo.remote_exists = false) ∧
        (c2BehindRepo.remote_exists = true →
          ((c2BehindRepo.sync_status = "Synced" ∨
            (∃ n, 0 < n ∧ c2BehindRepo.sync_status = aheadStr n) ∨
            (∃ n, 0 < n ∧ c2BehindRepo.sync_status = behindStr n) ∨
            (∃ a b, 0 < a ∧ 0 < b ∧
              c2BehindRepo.sync_status = divergedStr a b)) ∧
            (syncShapes c2BehindRepo.sync_status).count true = 1))) :=
  ⟨by decide, C2_sync_status_invariant c2BehindOracle "r" "/ws/r" false "main"
    (fun _ => "No PR") c2BehindRepo (by decide)⟩

/-! ## Claim C3

The eligibility engine tests `"Behind" in sync_status` *before* testing
`"Diverged" in sync_status`.  A diverged status string never contains
`"Behind"` (its characters are the literal `Diverged (+`, decimal digits, a
slash, a minus and a closing paren), so the first test fails and the reason is
`"already synced"`, not `"diverged (use force push)"`.
-/

theorem digitChar_isDigit {d : Nat} (h : d < 10) :
    (Nat.digitChar d).isDigit = true := by
  interval_cases d <;> decide

theorem toDigitsCore_digits (fuel : Nat) :
    ∀ (n : Nat) (ds : List Char), (∀ c ∈ ds, c.isDigit = true) →
      ∀ c ∈ Nat.toDigitsCore 10 fuel n ds, c.isDigit = true := by
  induction fuel with
  | zero =>
    intro n ds h c hc
    simpa [Nat.toDigitsCore] using h c hc
  | succ fuel ih =>
    intro n ds h c hc
    simp only [Nat.toDigitsCore] at hc
    have hd : (Nat.digitChar (n % 10)).isDigit = true :=
      digitChar_isDigit (Nat.mod_lt n (by decide))
    split at hc
    · rcases List.mem_cons.mp hc with rfl | hmem
      · exact hd
      · exact h c hmem
    · refine ih (n / 10) _ ?_ c hc
      intro x hx
      rcases List.mem_cons.mp hx with rfl | hmem
      · exact hd
      · exact h x hmem

/-- Every character of the decimal rendering of a natural number is an
ASCII digit. -/
theorem repr_data_digits (n : Nat) :
    ∀ c ∈ (Nat.repr n).data, c.isDigit = true := by
  show ∀ c ∈ Nat.toDigits 10 n, c.isDigit = true
  unfold Nat.toDigits
  exact toDigitsCore_digits (n + 1) n [] (by simp)

/-- A non-empty pattern whose head does not occur in the haystack is not a
substring of it. -/
theorem listIsInfixOf_false_of_not_mem (c : Char) (p l : List Char)
    (h : c ∉ l) : listIsInfixOf (c :: p) l = false := by
  induction l with
  | nil => rfl
  | cons d rest ih =>
    simp only [listIsInfixOf, List.isPrefixOf_cons₂]
    have hcd : (c == d) = false := by
      simp only [beq_eq_false_iff_ne, ne_eq]
      exact fun he => h (he ▸ List.mem_cons_self d rest)
    have hrest : listIsInfixOf (c :: p) rest = false :=
      ih fun hm => h (List.mem_cons_of_mem _ hm)
    simp [hcd, hrest]

/-- `"Behind"` is never a substring of a diverged sync status. -/
theorem no_Behind_in_divergedStr (a b : Nat) :
    pyIn "Behind" (divergedStr a b) = false := by
  unfold pyIn
  show listIsInfixOf ('B' :: "ehind".data) (divergedStr a b).data = false
  apply listIsInfixOf_false_of_not_mem
  intro hmem
  rw [divergedStr_data] at hmem
  simp only [List.mem_append] at hmem
  rcases hmem with h | h | h | h | h
  · exact absurd h (by decide)
  · exact absurd (repr_data_digits a 'B' h) (by decide)
  · exact absurd h (by decide)
  · exact absurd (repr_data_digits b 'B' h) (by decide)
  · exact absurd h (by decide)

/-- A repository on branch `feat` whose remote branch exists and has
diverged (1 commit ahead, 1 behind), with a clean tree. -/
def c3DivergedOracle : GitOracle := fun args =>
  if args == ["rev-parse", "--abbrev-ref", "HEAD"] then (true, "feat")
  else if args == ["ls-remote", "--heads", "origin", "feat"] then
    (true, "5d41a\x09refs/heads/feat")
  else if args == ["rev-parse", "HEAD"] then (true, "11aa1")
  else if args == ["rev-parse", "origin/feat"] then (true, "5d41a")
  else if args == ["rev-list", "--count", "origin/feat..HEAD"] then (true, "1")
  else if args == ["rev-list", "--count", "HEAD..origin/feat"] then (true, "1")
  else if args == ["rev-parse", "origin/main"] then (true, "77cc7")
  else if args == ["merge-base", "HEAD", "origin/main"] then (true, "77cc7")
  else if args == ["status", "--porcelain"] then (true, "")
  else (true, "")

/-- The state the inspector produces from `c3DivergedOracle`. -/
def c3DivergedRepo : RepoStatus :=
  ⟨"r", "/ws/r", "Repo", "feat", true, "Diverged (+1/-1)", "Rebased", "No PR",
    "main", false⟩

/-- **C3, counterexample.** A clean, diverged repository (both counts
nonzero, remote exists) produced by the inspector is indeed ineligible for
pull, but the reported reason is `"already synced"`, not the claimed
`"diverged (use force push)"`. -/
theorem C3_counterexample :
    check_repo c3DivergedOracle "r" "/ws/r" false "main" (fun _ => "No PR") =
        some c3DivergedRepo ∧
      c3DivergedRepo.remote_exists = true ∧
      c3DivergedRepo.sync_status = divergedStr 1 1 ∧
      c3DivergedRepo.has_changes = false ∧
      c3DivergedRepo.can_pull = false ∧
      c3DivergedRepo.why_not_pull = some "already synced" ∧
      ¬c3DivergedRepo.why_not_pull = some "diverged (use force push)" := by
  decide

/-- **C3, amended.** For every state with an existing remote and a diverged
sync status, pull is ineligible, and the reason the eligibility engine
reports is `"already synced"`: the `"diverged (use force push)"` reason is
unreachable because a diverged status string never contains `"Behind"`. -/
theorem C3_diverged_pull_reports_already_synced (r : RepoStatus) (a b : Nat)
    (hre : r.remote_exists = true) (hs : r.sync_status = divergedStr a b) :
    r.can_pull = false ∧ r.why_not_pull = some "already synced" := by
  have hwhy : r.why_not_pull = some "already synced" := by
    unfold RepoStatus.why_not_pull
    rw [hre, hs, no_Behind_in_divergedStr]
    simp
  exact ⟨by unfold RepoStatus.can_pull; rw [hwhy]; rfl, hwhy⟩

/-- Concrete instantiation of `C3_diverged_pull_reports_already_synced`. -/
theorem C3_witness :
    c3DivergedRepo.remote_exists = true ∧
      c3DivergedRepo.sync_status = divergedStr 1 1 ∧
      (c3DivergedRepo.can_pull = false ∧
        c3DivergedRepo.why_not_pull = some "already synced") :=
  ⟨rfl, by decide,
    C3_diverged_pull_reports_already_synced c3DivergedRepo 1 1 rfl (by decide)⟩

/-! ## Claim C7 -/

/-- **C7.** Every inspector-produced state whose branch lies in
`{main_branch, "main", "dev", "master"}` has the `"-"` rebase sentinel, and
the eligibility engine reports `can_rebase = false` with reason
`"on main branch"`. -/
theorem C7_trunk_branch_rebase_unknown (git : GitOracle) (name path : String)
    (is_worktree : Bool) (main_branch : String) (pr_of : String → String)
    (st : RepoStatus)
    (h : check_repo git name path is_worktree main_branch pr_of = some st)
    (hmem : [st.main_branch, "main", "dev", "master"].contains st.branch =
      true) :
    st.rebase_status = "-" ∧ st.why_not_rebase = some "on main branch" ∧
      st.can_rebase = false := by
  have hwhy : st.why_not_rebase = some "on main branch" := by
    unfold RepoStatus.why_not_rebase
    rw [if_pos hmem]
  have hcan : st.can_rebase = false := by
    unfold RepoStatus.can_rebase
    rw [hwhy]
    rfl
  refine ⟨?_, hwhy, hcan⟩
  simp only [check_repo] at h
  split at h
  · exact absurd h (by simp)
  · rw [Option.some.injEq] at h
    subst h
    dsimp only at hmem ⊢
    unfold computeRebaseStatus
    rw [if_pos hmem]

/-- A repository checked out on `main` with an up-to-date remote branch. -/
def c7MainOracle : GitOracle := fun args =>
  if args == ["rev-parse", "--abbrev-ref", "HEAD"] then (true, "main")
  else if args == ["ls-remote", "--heads", "origin", "main"] then
    (true, "ab12f\x09refs/heads/main")
  else if args == ["rev-parse", "HEAD"] then (true, "ab12f")
  else if args == ["rev-parse", "origin/main"] then (true, "ab12f")
  else if args == ["status", "--porcelain"] then (true, "")
  else (true, "")

/-- The state the inspector produces from `c7MainOracle`. -/
def c7MainRepo : RepoStatus :=
  ⟨"m", "/ws/m", "Repo", "main", true, "Synced", "-", "-", "main", false⟩

/-- Concrete instantiation of `C7_trunk_branch_rebase_unknown`. -/
theorem C7_witness :
    check_repo c7MainOracle "m" "/ws/m" false "main" (fun _ => "-") =
        some c7MainRepo ∧
      [c7MainRepo.main_branch, "main", "dev", "master"].contains
          c7MainRepo.branch = true ∧
      (c7MainRepo.rebase_status = "-" ∧
        c7MainRepo.why_not_rebase = some "on main branch" ∧
        c7MainRepo.can_rebase = false) :=
  ⟨by decide, by decide,
    C7_trunk_branch_rebase_unknown c7MainOracle "m" "/ws/m" false "main"
      (fun _ => "-") c7MainRepo (by decide) (by decide)⟩

/-! ## Claim C6

`reset_to_remote` (`src/vibe-git.py`, lines 1204–1221).  Besides the
`(success, message)` result the embedding returns the ordered list of git
commands actually issued, so that "later steps do not run" is expressible.
-/

def fetchCmd : List String := ["fetch", "origin"]

def resetCmd (branch : String) : List String :=
  ["reset", "--hard", "origin/" ++ branch]

def cleanCmd : List String := ["clean", "-fd"]

/-- `reset_to_remote`: fetch, hard-reset to `origin/<branch>`, clean; each
failure aborts with that step's message. -/
def reset_to_remote (git : GitOracle) (branch : String) :
    (Bool × String) × List (List String) :=
  let fetchRes := git fetchCmd
  if !fetchRes.1 then
    ((false, "Fetch failed: " ++ fetchRes.2), [fetchCmd])
  else
    let resetRes := git (resetCmd branch)
    if !resetRes.1 then
      ((false, "Reset failed: " ++ resetRes.2), [fetchCmd, resetCmd branch])
    else
      let cleanRes := git cleanCmd
      if !cleanRes.1 then
        ((false, "Clean failed: " ++ cleanRes.2),
          [fetchCmd, resetCmd branch, cleanCmd])
      else
        ((true, "Reset to origin/" ++ branch),
          [fetchCmd, resetCmd branch, cleanCmd])

/-- **C6.** Reset-to-remote runs fetch, hard-reset, clean in that order; a
failing step returns failure carrying that step's diagnostic message and
executes no later command (the issued-command trace stops at the failing
step); when all three succeed it reports success. -/
theorem C6_reset_to_remote_abort_semantics (git : GitOracle)
    (branch : String) :
    ((git fetchCmd).1 = false →
      reset_to_remote git branch =
        ((false, "Fetch failed: " ++ (git fetchCmd).2), [fetchCmd])) ∧
      ((git fetchCmd).1 = true → (git (resetCmd branch)).1 = false →
        reset_to_remote git branch =
          ((false, "Reset failed: " ++ (git (resetCmd branch)).2),
            [fetchCmd, resetCmd branch])) ∧
      ((git fetchCmd).1 = true → (git (resetCmd branch)).1 = true →
        (git cleanCmd).1 = false →
        reset_to_remote git branch =
          ((false, "Clean failed: " ++ (git cleanCmd).2),
            [fetchCmd, resetCmd branch, cleanCmd])) ∧
      ((git fetchCmd).1 = true → (git (resetCmd branch)).1 = true →
        (git cleanCmd).1 = true →
        reset_to_remote git branch =
          ((true, "Reset to origin/" ++ branch),
            [fetchCmd, resetCmd branch, cleanCmd])) := by
  refine ⟨fun h1 => ?_, fun h1 h2 => ?_, fun h1 h2 h3 => ?_,
    fun h1 h2 h3 => ?_⟩
  · simp [reset_to_remote, h1]
  · simp [reset_to_remote, h1, h2]
  · simp [reset_to_remote, h1, h2, h3]
  · simp [reset_to_remote, h1, h2, h3]

/-- A repository whose fetch fails. -/
def c6FetchFailOracle : GitOracle := fun args =>
  if args == fetchCmd then (false, "fatal: unable to access remote")
  else (true, "")

/-- A repository whose fetch succeeds but whose hard reset fails. -/
def c6ResetFailOracle : GitOracle := fun args =>
  if args == fetchCmd then (true, "")
  else if args == resetCmd "feat" then
    (false, "fatal: ambiguous argument")
  else (true, "")

/-- Concrete instantiations of `C6_reset_to_remote_abort_semantics`: a
failed fetch stops after the fetch, and a failed reset stops after the
reset. -/
theorem C6_witness :
    reset_to_remote c6FetchFailOracle "feat" =
        ((false, "Fetch failed: fatal: unable to access remote"),
          [fetchCmd]) ∧
      reset_to_remote c6ResetFailOracle "feat" =
        ((false, "Reset failed: fatal: ambiguous argument"),
          [fetchCmd, resetCmd "feat"]) :=
  ⟨(C6_reset_to_remote_abort_semantics c6FetchFailOracle "feat").1
      (by decide),
    (C6_reset_to_remote_abort_semantics c6ResetFailOracle "feat").2.1
      (by decide) (by decide)⟩

/-! ## Claim C5

`delete_local_folder` (`src/vibe-git.py`, lines 1224–1259).  The embedding
returns, besides the `(success, message)` result, the ordered list of
side-effecting operations performed: git commands (tagged with their
working directory) and `shutil.rmtree` directory removals.  The
filesystem reads (`(repo.path / ".git").is_file()`, the pointer-file
content, `main_repo.exists()`) and the outcome of `shutil.rmtree` are
environment inputs.
-/

inductive FsEvent where
  | gitCmd (cwd : String) (args : List String)
  | rmtree (path : String)
deriving DecidableEq

/-- Is the event a directory removal? -/
def FsEvent.isRmtree : FsEvent → Bool
  | .rmtree _ => true
  | .gitCmd _ _ => false

structure DeleteEnv where
  /-- `run_git(args, cwd)`, keyed by working directory then argument list. -/
  git : String → List String → Bool × String
  /-- `(repo.path / ".git").is_file()`. -/
  gitFileIsFile : Bool
  /-- `(repo.path / ".git").read_text()`. -/
  gitFileContent : String
  /-- `path.exists()` for the computed owning-repository path. -/
  pathExists : String → Bool
  /-- whether `shutil.rmtree(repo.path)` succeeds. -/
  rmtreeOk : Bool
  /-- the exception text when `shutil.rmtree` fails. -/
  rmtreeErr : String

/-- `pathlib.Path.parent` for slash-separated paths (drop the last
component; the parent of a single relative component is `"."`, of a
top-level absolute component `"/"`). -/
def pathParent (p : String) : String :=
  match p.data.reverse.dropWhile (fun c => !(c == '/')) with
  | [] => "."
  | ['/'] => "/"
  | _ :: rest => rest.reverse.asString

/-- The owning-repository path computed by the pointer-file walk:
`Path(content.split(":", 1)[1].strip()).parent.parent.parent` where
`content` is the stripped pointer-file text (guarded by
`content.startswith("gitdir:")`, so the first colon is at index 6). -/
def resolvedMainRepo (env : DeleteEnv) : String :=
  let content := pyStripStr env.gitFileContent
  let worktree_git_dir := pyStripStr ⟨content.data.drop 7⟩
  pathParent (pathParent (pathParent worktree_git_dir))

/-- `delete_local_folder`: for a worktree, attempt the pointer-file walk and
a `git worktree remove --force` in the owning repository; if any guard of
the walk fails, fall back to removing the directory; for a plain
repository, remove the directory directly.  The nested Python `if`s with a
shared fall-through are rendered as one conjunction guard. -/
def delete_local_folder (env : DeleteEnv) (repo : RepoStatus) :
    (Bool × String) × List FsEvent :=
  if repo.type_label == "Worktree" then
    let revRes := env.git repo.path ["rev-parse", "--git-dir"]
    let ev0 : List FsEvent := [.gitCmd repo.path ["rev-parse", "--git-dir"]]
    if revRes.1 && revRes.2 != "" && env.gitFileIsFile
        && pyStartsWith (pyStripStr env.gitFileContent) "gitdir:"
        && env.pathExists (resolvedMainRepo env) then
      let wrRes := env.git (resolvedMainRepo env)
        ["worktree", "remove", "--force", repo.path]
      let evs := ev0 ++
        [.gitCmd (resolvedMainRepo env)
          ["worktree", "remove", "--force", repo.path]]
      if wrRes.1 then ((true, "Worktree removed: " ++ repo.name), evs)
      else ((false, "Worktree remove failed: " ++ wrRes.2), evs)
    else
      if env.rmtreeOk then
        ((true, "Worktree folder deleted: " ++ repo.name),
          ev0 ++ [.rmtree repo.path])
      else
        ((false, "Delete failed: " ++ env.rmtreeErr),
          ev0 ++ [.rmtree repo.path])
  else
    if env.rmtreeOk then
      ((true, "Repo deleted: " ++ repo.name), [.rmtree repo.path])
    else
      ((false, "Delete failed: " ++ env.rmtreeErr), [.rmtree repo.path])

/-- A worktree whose `.git` entry is not a pointer file (`is_file()` is
false), so the pointer-file walk cannot resolve the owning repository. -/
def c5FallbackEnv : DeleteEnv :=
  ⟨fun _ _ => (true, "/ws/main/.git/worktrees/wt"), false, "",
    fun _ => true, true, ""⟩

/-- A worktree repository state (synced, clean, so delete-local is
eligible). -/
def c5WorktreeRepo : RepoStatus :=
  ⟨"wt", "/ws/wt", "Worktree", "feat", true, "Synced", "Rebased", "-",
    "main", false⟩

/-- **C5, counterexample.** An execution of delete-local on a worktree in
which the detachment never succeeds (no `worktree remove` command is ever
issued — the pointer-file walk fails at the `is_file` guard) and yet the
worktree's directory is removed: the full effect trace is the `rev-parse`
probe followed directly by `rmtree`. -/
theorem C5_counterexample :
    c5WorktreeRepo.type_label = "Worktree" ∧
      delete_local_folder c5FallbackEnv c5WorktreeRepo =
        ((true, "Worktree folder deleted: wt"),
          [FsEvent.gitCmd "/ws/wt" ["rev-parse", "--git-dir"],
            FsEvent.rmtree "/ws/wt"]) := by
  decide

/-- **C5, amended.** When the pointer-file walk succeeds (the `rev-parse`
probe returns a non-empty answer, the `.git` entry is a pointer file whose
stripped content starts with `"gitdir:"`, and the resolved owning
repository exists), directory removal is never attempted: the trace
contains no `rmtree`, and a failed `worktree remove` reports failure.  Only
when the walk fails does the code fall back to removing the directory
without detaching. -/
theorem C5_detach_before_delete (env : DeleteEnv) (repo : RepoStatus)
    (hw : repo.type_label = "Worktree")
    (hg : ((env.git repo.path ["rev-parse", "--git-dir"]).1
        && (env.git repo.path ["rev-parse", "--git-dir"]).2 != ""
        && env.gitFileIsFile
        && pyStartsWith (pyStripStr env.gitFileContent) "gitdir:"
        && env.pathExists (resolvedMainRepo env)) = true) :
    ((delete_local_folder env repo).2.any FsEvent.isRmtree) = false ∧
      ((env.git (resolvedMainRepo env)
          ["worktree", "remove", "--force", repo.path]).1 = false →
        (delete_local_folder env repo).1.1 = false) := by
  have hcond : (repo.type_label == "Worktree") = true := by
    rw [hw]; rfl
  simp only [delete_local_folder, hcond, hg, if_true]
  constructor
  · split <;> rfl
  · intro hfail
    simp [hfail]

/-- A worktree at `/ws/wt` whose pointer file resolves to the owning
repository `/ws/main`, which exists; `worktree remove` succeeds there. -/
def c5DetachEnv : DeleteEnv :=
  ⟨fun cwd args =>
    if cwd == "/ws/wt" && args == ["rev-parse", "--git-dir"] then
      (true, "/ws/main/.git/worktrees/wt")
    else if cwd == "/ws/main"
        && args == ["worktree", "remove", "--force", "/ws/wt"] then
      (true, "")
    else (true, ""),
    true, "gitdir: /ws/main/.git/worktrees/wt", fun p => p == "/ws/main",
    true, ""⟩

/-- Concrete instantiation of `C5_detach_before_delete`. -/
theorem C5_witness :
    c5WorktreeRepo.type_label = "Worktree" ∧
      ((c5DetachEnv.git c5WorktreeRepo.path ["rev-parse", "--git-dir"]).1
          && (c5DetachEnv.git c5WorktreeRepo.path
            ["rev-parse", "--git-dir"]).2 != ""
          && c5DetachEnv.gitFileIsFile
          && pyStartsWith (pyStripStr c5DetachEnv.gitFileContent) "gitdir:"
          && c5DetachEnv.pathExists (resolvedMainRepo c5DetachEnv)) = true ∧
      (((delete_local_folder c5DetachEnv c5WorktreeRepo).2.any
          FsEvent.isRmtree) = false ∧
        ((c5DetachEnv.git (resolvedMainRepo c5DetachEnv)
            ["worktree", "remove", "--force", c5WorktreeRepo.path]).1 =
              false →
          (delete_local_folder c5DetachEnv c5WorktreeRepo).1.1 = false)) :=
  ⟨rfl, by decide,
    C5_detach_before_delete c5DetachEnv c5WorktreeRepo rfl (by decide)⟩

/-! ## Claims C8 and C10

`generate_speckit_branch_name` (`src/vibe-git.py`, lines 760–779).
`re.findall(r"[a-zA-Z]+", s)` is modelled as the maximal runs of alphabetic
characters; Python `str.lower` as `Char.toLower` (both lower exactly the
ASCII uppercase letters on the relevant alphabet); `"-".join` as
`pyJoinHyphen`.
-/

/-- Maximal runs of alphabetic characters (`acc` holds the current run,
reversed). -/
def splitRunsAux : List Char → List Char → List (List Char)
  | [], acc => if acc.isEmpty then [] else [acc.reverse]
  | c :: rest, acc =>
    if c.isAlpha then splitRunsAux rest (c :: acc)
    else if acc.isEmpty then splitRunsAux rest []
    else acc.reverse :: splitRunsAux rest []

/-- `re.findall(r"[a-zA-Z]+", description.lower())`. -/
def findAlphaWords (s : String) : List String :=
  (splitRunsAux (s.data.map Char.toLower) []).map List.asString

/-- The stop-word set of `generate_speckit_branch_name`, verbatim. -/
def stop_words : List String :=
  ["i", "a", "an", "the", "to", "for", "of", "in", "on", "at", "by", "with",
   "from", "is", "are", "was", "were", "be", "been", "being", "have", "has",
   "had", "do", "does", "did", "will", "would", "should", "could", "can",
   "may", "might", "must", "shall", "this", "that", "these", "those", "my",
   "your", "our", "their", "want", "need", "add", "get", "set", "build",
   "create", "implement", "develop", "make", "new"]

/-- Python `"-".join(ws)`. -/
def pyJoinHyphen : List String → String
  | [] => ""
  | [w] => w
  | w :: ws => w ++ "-" ++ pyJoinHyphen ws

/-- `generate_speckit_branch_name`: lower-case, extract alphabetic words,
drop stop words and words shorter than 3 characters; fall back to the first
three words of length at least 2; join the first four surviving words with
hyphens, or return `"feature"`. -/
def generate_speckit_branch_name (description : String) : String :=
  let words := findAlphaWords description
  let meaningful0 :=
    words.filter fun w => !stop_words.contains w && w.length ≥ 3
  let meaningful :=
    if meaningful0.isEmpty then (words.filter fun w => w.length ≥ 2).take 3
    else meaningful0
  if meaningful.isEmpty then "feature" else pyJoinHyphen (meaningful.take 4)

/-- **C8, counterexample.** On the input of Scenario D the generator keeps
`"now"` — it is not in the stop-word list — so the suffix is
`"user-authentication-now"`, not the claimed `"user-authentication"`. -/
theorem C8_counterexample :
    generate_speckit_branch_name "I want to add user authentication now" =
        "user-authentication-now" ∧
      ¬generate_speckit_branch_name "I want to add user authentication now" =
        "user-authentication" := by
  decide

/-- **C8, amended.** For the description
`"I want to add user authentication now"` the generator drops the stop
words `"i"`, `"want"`, `"to"`, `"add"` and keeps `"user"`,
`"authentication"` and `"now"` (which is not a stop word), producing
`"user-authentication-now"`. -/
theorem C8_speckit_suffix_scenario_d :
    generate_speckit_branch_name "I want to add user authentication now" =
        "user-authentication-now" ∧
      stop_words.contains "now" = false ∧
      stop_words.contains "i" = true ∧ stop_words.contains "want" = true ∧
      stop_words.contains "to" = true ∧ stop_words.contains "add" = true := by
  decide

/-- `UInt32` order is definitionally `Nat` order on `toNat`. -/
theorem uint32_le_iff (a b : UInt32) : a ≤ b ↔ a.toNat ≤ b.toNat := Iff.rfl

/-- Lower-casing never yields an ASCII uppercase letter. -/
theorem toLower_not_upper (c : Char) : (Char.toLower c).isUpper = false := by
  simp only [Char.toLower]
  split
  case isTrue h =>
    have hv : (c.toNat + 32).isValidChar := Or.inl (by
      rcases h with ⟨h1, h2⟩
      omega)
    rw [Char.ofNat, dif_pos hv]
    have h1 : (Char.ofNatAux (c.toNat + 32) hv).val.toNat = c.toNat + 32 := rfl
    unfold Char.isUpper
    simp only [Bool.and_eq_false_iff, decide_eq_false_iff_not]
    right
    intro hle
    rw [uint32_le_iff] at hle
    rw [h1] at hle
    have h90 : (90 : UInt32).toNat = 90 := rfl
    rw [h90] at hle
    omega
  case isFalse h =>
    unfold Char.isUpper
    simp only [Bool.and_eq_false_iff, decide_eq_false_iff_not]
    by_contra hcon
    push_neg at hcon
    obtain ⟨ha, hb⟩ := hcon
    exact h ⟨ha, hb⟩

/-- An alphabetic character in the image of `Char.toLower` is a lowercase
letter. -/
theorem toLower_alpha_isLower (x : Char)
    (h : (Char.toLower x).isAlpha = true) :
    (Char.toLower x).isLower = true := by
  unfold Char.isAlpha at h
  rw [toLower_not_upper] at h
  simpa using h

/-- Every run produced by `splitRunsAux` is non-empty, and all its
characters satisfy any property `P` that holds of the accumulator and of
every alphabetic character of the remaining input. -/
theorem splitRunsAux_sound (P : Char → Prop) (l : List Char) :
    ∀ (acc : List Char), (∀ c ∈ acc, P c) →
      (∀ c ∈ l, c.isAlpha = true → P c) →
      ∀ w ∈ splitRunsAux l acc, w ≠ [] ∧ ∀ c ∈ w, P c := by
  induction l with
  | nil =>
    intro acc hacc _ w hw
    simp only [splitRunsAux] at hw
    split at hw
    · exact absurd hw (List.not_mem_nil w)
    · rename_i hne
      rw [List.mem_singleton] at hw
      subst hw
      refine ⟨?_, fun c hc => hacc c (List.mem_reverse.mp hc)⟩
      simp only [ne_eq, List.reverse_eq_nil_iff]
      simpa [List.isEmpty_iff] using hne
  | cons c rest ih =>
    intro acc hacc hl w hw
    simp only [splitRunsAux] at hw
    split at hw
    · rename_i halpha
      refine ih (c :: acc) ?_ ?_ w hw
      · intro x hx
        rcases List.mem_cons.mp hx with rfl | hx
        · exact hl _ (List.mem_cons_self _ _) halpha
        · exact hacc x hx
      · intro x hx hxa
        exact hl x (List.mem_cons_of_mem c hx) hxa
    · split at hw
      · exact ih [] (by simp) (fun x hx hxa =>
          hl x (List.mem_cons_of_mem c hx) hxa) w hw
      · rename_i hne
        rcases List.mem_cons.mp hw with rfl | hw
        · refine ⟨?_, fun x hx => hacc x (List.mem_reverse.mp hx)⟩
          simp only [ne_eq, List.reverse_eq_nil_iff]
          simpa [List.isEmpty_iff] using hne
        · exact ih [] (by simp) (fun x hx hxa =>
            hl x (List.mem_cons_of_mem c hx) hxa) w hw

/-- Every word extracted from a description is non-empty and consists of
lowercase letters only. -/
theorem findAlphaWords_lower (s : String) :
    ∀ w ∈ findAlphaWords s, w.data ≠ [] ∧ ∀ c ∈ w.data,
      c.isLower = true := by
  intro w hw
  unfold findAlphaWords at hw
  rw [List.mem_map] at hw
  obtain ⟨cs, hcs, rfl⟩ := hw
  have := splitRunsAux_sound (fun c => c.isLower = true)
    (s.data.map Char.toLower) [] (by simp) ?_ cs hcs
  · exact this
  · intro c hc hca
    rw [List.mem_map] at hc
    obtain ⟨x, _, rfl⟩ := hc
    exact toLower_alpha_isLower x hca

/-- The §4.5 output alphabet: lowercase ASCII letters plus the hyphen
separator. -/
def lowerOrHyphen (c : Char) : Bool := c.isLower || c == '-'

/-- Joining non-empty all-lowercase words with hyphens yields a non-empty
string over `lowerOrHyphen` with one hyphen fewer than the word count. -/
theorem pyJoinHyphen_props : ∀ (ws : List String),
    (∀ w ∈ ws, w.data ≠ [] ∧ ∀ c ∈ w.data, c.isLower = true) → ws ≠ [] →
    (pyJoinHyphen ws).data ≠ [] ∧
      (pyJoinHyphen ws).data.all lowerOrHyphen = true ∧
      (pyJoinHyphen ws).data.count '-' + 1 ≤ ws.length
  | [], _, hne => absurd rfl hne
  | [w], hw, _ => by
    obtain ⟨h1, h2⟩ := hw w (List.mem_singleton.mpr rfl)
    have hcount : (pyJoinHyphen [w]).data.count '-' = 0 := by
      show w.data.count '-' = 0
      exact List.count_eq_zero.mpr fun hc => absurd (h2 '-' hc) (by decide)
    refine ⟨h1, ?_, by rw [hcount]; simp⟩
    show w.data.all lowerOrHyphen = true
    rw [List.all_eq_true]
    intro c hc
    simp [lowerOrHyphen, h2 c hc]
  | w :: v :: vs, hw, _ => by
    obtain ⟨ih1, ih2, ih3⟩ := pyJoinHyphen_props (v :: vs)
      (fun x hx => hw x (List.mem_cons_of_mem w hx)) (by simp)
    obtain ⟨h1, h2⟩ := hw w (List.mem_cons_self w (v :: vs))
    have hwcount : w.data.count '-' = 0 :=
      List.count_eq_zero.mpr fun hc => absurd (h2 '-' hc) (by decide)
    have hdata : (pyJoinHyphen (w :: v :: vs)).data =
        w.data ++ "-".data ++ (pyJoinHyphen (v :: vs)).data := by
      show (w ++ "-" ++ pyJoinHyphen (v :: vs)).data = _
      simp
    refine ⟨?_, ?_, ?_⟩
    · rw [hdata]
      intro hnil
      rw [List.append_eq_nil] at hnil
      rw [List.append_eq_nil] at hnil
      exact h1 hnil.1.1
    · rw [hdata]
      rw [List.all_append, List.all_append]
      simp only [Bool.and_eq_true]
      refine ⟨⟨?_, by decide⟩, ih2⟩
      rw [List.all_eq_true]
      intro c hc
      simp [lowerOrHyphen, h2 c hc]
    · rw [hdata]
      rw [List.count_append, List.count_append, hwcount]
      have : List.count '-' "-".data = 1 := by decide
      rw [this]
      simp only [List.length_cons] at ih3 ⊢
      omega

/-- Taking at most four candidate words (all non-empty and lowercase) and
hyphen-joining them yields a non-empty string over `lowerOrHyphen` with at
most three hyphens. -/
theorem joined_wellformed (cands : List String)
    (hsub : ∀ w ∈ cands, w.data ≠ [] ∧ ∀ c ∈ w.data, c.isLower = true)
    (hne : cands.isEmpty = false) :
    0 < (pyJoinHyphen (cands.take 4)).length ∧
      (pyJoinHyphen (cands.take 4)).data.all lowerOrHyphen = true ∧
      (pyJoinHyphen (cands.take 4)).data.count '-' ≤ 3 := by
  have hcne : cands ≠ [] := by
    intro hc
    rw [hc] at hne
    exact absurd hne (by decide)
  have htne : cands.take 4 ≠ [] := by
    rw [ne_eq, List.take_eq_nil_iff]
    push_neg
    exact ⟨by decide, hcne⟩
  obtain ⟨h1, h2, h3⟩ := pyJoinHyphen_props (cands.take 4)
    (fun w hw => hsub w (List.mem_of_mem_take hw)) htne
  refine ⟨?_, h2, ?_⟩
  · show 0 < (pyJoinHyphen (cands.take 4)).data.length
    exact List.length_pos.mpr h1
  · have := List.length_take_le 4 cands
    omega

/-- **C10.** For every description the generated branch suffix is non-empty,
consists only of lowercase ASCII letters and hyphens, and has at most three
hyphens (hence at most four hyphen-separated words). -/
theorem C10_branch_suffix_wellformed (d : String) :
    0 < (generate_speckit_branch_name d).length ∧
      (generate_speckit_branch_name d).data.all lowerOrHyphen = true ∧
      (generate_speckit_branch_name d).data.count '-' ≤ 3 := by
  have hwords := findAlphaWords_lower d
  simp only [generate_speckit_branch_name]
  split
  case isTrue hA =>
    split
    case isTrue h2 => exact ⟨by decide, by decide, by decide⟩
    case isFalse h2 =>
      apply joined_wellformed
      · intro w hw
        exact hwords w (List.mem_of_mem_filter (List.mem_of_mem_take hw))
      · rw [Bool.not_eq_true] at h2
        exact h2
  case isFalse hA =>
    apply joined_wellformed
    · intro w hw
      exact hwords w (List.mem_of_mem_filter hw)
    · rw [Bool.not_eq_true] at hA
      exact hA

/-! ## Claim C9

`get_next_feature_number` (`src/vibe-git.py`, lines 728–757).  The `git
branch -a` output arrives as a `(success, output)` pair; the nested
`<sibling>/specs/<folder>` directory scan is a filesystem walk, modelled as
the list of spec-folder directory names it yields.
-/

/-- Per-line cleanup of `git branch -a` output:
`line.strip().lstrip("* ").replace("remotes/origin/", "")`. -/
def cleanBranchLine (line : String) : String :=
  pyReplace ⟨pyLstrip ['*', ' '] (pyStrip line.data)⟩ "remotes/origin/" ""

/-- `re.match(r"^(\d{3})-", s)`, returning the integer value of the
three-digit group. -/
def match3 (s : String) : Option Nat :=
  match s.data with
  | d1 :: d2 :: d3 :: '-' :: _ =>
    if d1.isDigit && d2.isDigit && d3.isDigit then
      some (((d1.toNat - 48) * 10 + (d2.toNat - 48)) * 10 + (d3.toNat - 48))
    else none
  | _ => none

/-- `get_next_feature_number`: fold the maximum three-digit prefix over the
cleaned branch lines (when the branch query succeeded) and over the
spec-folder names, starting from 0, and add one. -/
def get_next_feature_number (branchesRes : Bool × String)
    (specNames : List String) : Nat :=
  let highest := 0
  let highest :=
    if branchesRes.1 then
      (pyLines branchesRes.2).foldl (fun h line =>
        match match3 (cleanBranchLine line) with
        | some num => max h num
        | none => h) highest
    else highest
  let highest := specNames.foldl (fun h nm =>
      match match3 nm with
      | some num => max h num
      | none => h) highest
  highest + 1

/-- Spec-side characterization (§4.5): the list of all three-digit leading
prefixes found across the scanned branch names and spec-folder names. -/
def extractedFeatureNumbers (branchesRes : Bool × String)
    (specNames : List String) : List Nat :=
  (if branchesRes.1 then
    (pyLines branchesRes.2).filterMap (fun line =>
      match3 (cleanBranchLine line))
  else []) ++ specNames.filterMap match3

theorem foldl_match_eq_filterMap {α : Type} (f : α → Option Nat)
    (l : List α) :
    ∀ h : Nat,
      l.foldl (fun h x =>
        match f x with
        | some num => max h num
        | none => h) h = (l.filterMap f).foldl max h := by
  induction l with
  | nil => intro h; rfl
  | cons x xs ih =>
    intro h
    rw [List.foldl_cons, List.filterMap_cons]
    cases hf : f x with
    | none => rw [ih]
    | some num => rw [List.foldl_cons, ih]

theorem foldl_max_eq_foldr (l : List Nat) :
    ∀ a : Nat, l.foldl max a = max a (l.foldr max 0) := by
  induction l with
  | nil => intro a; simp
  | cons b bs ih =>
    intro a
    rw [List.foldl_cons, List.foldr_cons, ih, Nat.max_assoc]

theorem foldr_max_eq (l : List Nat) :
    ∀ a : Nat, l.foldr max a = max (l.foldr max 0) a := by
  induction l with
  | nil => intro a; simp
  | cons b bs ih =>
    intro a
    rw [List.foldr_cons, List.foldr_cons, ih, Nat.max_assoc]

/-- **C9.** The next feature number is one plus the maximum three-digit
leading prefix found across all scanned branch names and spec-folder names
(one when no prefix is found); in particular, prefixes 041, 042 and 043
yield 44. -/
theorem C9_next_feature_number :
    (∀ (branchesRes : Bool × String) (specNames : List String),
      get_next_feature_number branchesRes specNames =
        (extractedFeatureNumbers branchesRes specNames).foldr max 0 + 1) ∧
      get_next_feature_number
        (true, "  041-x\n* 042-oauth-login\n  remotes/origin/041-x")
        ["043-y"] = 44 := by
  constructor
  · intro branchesRes specNames
    simp only [get_next_feature_number, extractedFeatureNumbers]
    rw [List.foldr_append]
    rw [foldl_match_eq_filterMap, foldl_max_eq_foldr]
    split
    · rw [foldl_match_eq_filterMap, foldl_max_eq_foldr]
      rw [foldr_max_eq ((pyLines branchesRes.2).filterMap
        (fun line => match3 (cleanBranchLine line)))
        (List.foldr max 0 (specNames.filterMap match3))]
      simp
    · simp
  · decide
